import Mathlib

set_option maxRecDepth 4000

/-!
Shallow embedding of the heuristic text-extraction and before/after comparison
engine of the medical-imaging dashboard.  The embedded code lives in
`src/components/scan/BeforeAfterUpload.tsx` (comparison engine, change
intensity) and `src/context/ScanContext.tsx` (text signal extractor, report
text generator).  JavaScript strings are Lean `String`s, JavaScript numbers
are rationals (`ℚ`), `Math.round` is `jsRound` (floor of `x + 1/2`, i.e.
round half toward positive infinity), and a JavaScript `indexOf` result of
`-1` is `none`.
-/

/-- `listIsPrefix pat l` is true iff `pat` occurs at the start of `l`
(character-list prefix test used to implement the JavaScript string
searches). -/
def listIsPrefix : List Char → List Char → Bool
  | [], _ => true
  | _ :: _, [] => false
  | p :: ps, c :: cs => p == c && listIsPrefix ps cs

/-- `listIndexOf l pat` is the index of the first occurrence of `pat` in `l`
(`none` when absent): JavaScript `l.indexOf(pat)` with `-1` as `none`. -/
def listIndexOf : List Char → List Char → Option Nat
  | [], pat => if pat = [] then some 0 else none
  | c :: t, pat =>
    if listIsPrefix pat (c :: t) then some 0
    else (listIndexOf t pat).map (· + 1)

/-- JavaScript `s.indexOf(pat)` (`none` for `-1`). -/
def strIndexOf (s pat : String) : Option Nat := listIndexOf s.data pat.data

/-- JavaScript `s.indexOf(pat, start)`: first occurrence at index `≥ start`. -/
def strIndexOfFrom (s pat : String) (start : Nat) : Option Nat :=
  (listIndexOf (s.data.drop start) pat.data).map (· + start)

/-- JavaScript `s.lastIndexOf(pat, i)`: the largest index `j ≤ i` at which
`pat` starts in `s` (`none` for `-1`). -/
def strLastIndexOfFrom (s pat : String) (i : Nat) : Option Nat :=
  ((List.range (i + 1)).filter fun j => listIsPrefix pat.data (s.data.drop j)).getLast?

/-- JavaScript `s.includes(pat)`. -/
def strIncludes (s pat : String) : Bool := (listIndexOf s.data pat.data).isSome

/-- JavaScript `s.toLowerCase()` (character-wise ASCII lowering). -/
def strToLower (s : String) : String := String.mk (s.data.map Char.toLower)

/-- JavaScript `s.trim()`: strip whitespace from both ends. -/
def strTrim (s : String) : String :=
  String.mk (((s.data.dropWhile Char.isWhitespace).reverse.dropWhile Char.isWhitespace).reverse)

/-- `text.toLowerCase().includes(pat)` — the case-insensitive substring test
used throughout the source. -/
def containsLower (text pat : String) : Bool := strIncludes (strToLower text) pat

/-- A finding (`src/types/index.ts`, `Finding`): `confidence` is a JavaScript
number modelled as `ℚ`; `severity` is kept as a free string (the comparison
code ranks arbitrary strings through a defaulting lookup). -/
structure Finding where
  id : String
  area : String
  description : String
  confidence : ℚ
  severity : String
deriving DecidableEq

/-- The severity table `severityLevels = {normal: 0, low: 1, medium: 2,
high: 3, critical: 4}` read as `severityLevels[s] ?? 0`, so an unrecognized
string defaults to 0.  The source defines this identical table at both of its
use sites (`compareScans` line 254 and `calculateChangeIntensity` line 971). -/
def severityRank (s : String) : Nat :=
  if s = "normal" then 0
  else if s = "low" then 1
  else if s = "medium" then 2
  else if s = "high" then 3
  else if s = "critical" then 4
  else 0

/-- JavaScript `Math.round`: round half toward positive infinity. -/
def jsRound (q : ℚ) : ℤ := ⌊q + 1 / 2⌋

/-- The three per-pair change factors, each reported scaled by 100 and
rounded (`calculateChangeIntensity`'s `factors`). -/
structure ChangeFactors where
  severityChange : ℤ
  confidenceChange : ℤ
  descriptionChange : ℤ
deriving DecidableEq

/-- Return shape of `calculateChangeIntensity`. -/
structure ChangeAnalysis where
  intensity : ℤ
  factors : ChangeFactors
deriving DecidableEq

/-- `calculateChangeIntensity` (`BeforeAfterUpload.tsx` 962–1009): weighted
sum of a normalized severity delta (weight 0.5), confidence delta (0.3) and
a binary description-change signal (0.2), scaled to a percentage, rounded,
and capped at 100. -/
def calculateChangeIntensity (before after : Finding) : ChangeAnalysis :=
  let severityChange : ℚ :=
    |(severityRank after.severity : ℚ) - (severityRank before.severity : ℚ)| / 4
  let confidenceChange : ℚ := |after.confidence - before.confidence|
  let descriptionChange : ℚ := if before.description = after.description then 0 else 1 / 2
  let intensity : ℚ :=
    (severityChange * (1 / 2) + confidenceChange * (3 / 10) + descriptionChange * (1 / 5)) * 100
  { intensity := min (jsRound intensity) 100
    factors :=
      { severityChange := jsRound (severityChange * 100)
        confidenceChange := jsRound (confidenceChange * 100)
        descriptionChange := jsRound (descriptionChange * 100) } }

/-- The three-valued change verdict `'improved' | 'worsened' | 'stable'`. -/
inductive ChangeType where
  | improved
  | worsened
  | stable
deriving DecidableEq

/-- Per-pair classification by severity delta (`BeforeAfterUpload.tsx`
286–295): negative delta `improved`, positive `worsened`, zero `stable`. -/
def classifyPair (before after : Finding) : ChangeType :=
  let severityChange : ℤ :=
    (severityRank after.severity : ℤ) - (severityRank before.severity : ℤ)
  if severityChange < 0 then .improved
  else if 0 < severityChange then .worsened
  else .stable

/-- One entry of `changedIssues` (`BeforeAfterUpload.tsx` 297–304). -/
structure ChangedIssue where
  area : String
  before : Finding
  after : Finding
  change : ChangeType
  changePercentage : ℤ
  changeFactors : ChangeFactors
deriving DecidableEq

/-- `ComparisonResult` (`BeforeAfterUpload.tsx` 16–36) restricted to its
computed data fields; the derived presentation strings (`summary`,
`recommendations`, `geminiAnalysis`) are out of scope here. -/
structure ComparisonResult where
  overallChange : ChangeType
  changePercentage : ℚ
  resolvedIssues : List Finding
  newIssues : List Finding
  changedIssues : List ChangedIssue
deriving DecidableEq

/-- `resolvedIssues` (`BeforeAfterUpload.tsx` 257–260): before-findings with
a truthy (non-empty) area that no after-finding shares. -/
def resolvedIssues (beforeFindings afterFindings : List Finding) : List Finding :=
  beforeFindings.filter fun b =>
    b.area != "" && !(afterFindings.any fun a => a.area == b.area)

/-- `newIssues` (`BeforeAfterUpload.tsx` 262–265). -/
def newIssues (beforeFindings afterFindings : List Finding) : List Finding :=
  afterFindings.filter fun a =>
    a.area != "" && !(beforeFindings.any fun b => b.area == a.area)

/-- The record built for one matched pair (`BeforeAfterUpload.tsx`
284–304): the classification together with the change-intensity data. -/
def mkChangedIssue (b a : Finding) : ChangedIssue :=
  let changeAnalysis := calculateChangeIntensity b a
  { area := b.area
    before := b
    after := a
    change := classifyPair b a
    changePercentage := changeAnalysis.intensity
    changeFactors := changeAnalysis.factors }

/-- `changedIssues` (`BeforeAfterUpload.tsx` 271–306): before-findings with a
truthy area present in after, each paired with the first after-finding of the
same area (`find`); the null guard of the source is the `Option.map` of the
`find?`. -/
def changedIssues (beforeFindings afterFindings : List Finding) : List ChangedIssue :=
  (beforeFindings.filter fun b =>
      b.area != "" && (afterFindings.any fun a => a.area == b.area)).filterMap
    fun b => (afterFindings.find? fun a => a.area == b.area).map (mkChangedIssue b)

/-- `totalIssues = Math.max(beforeFindings.length, 1)` (line 311). -/
def totalIssues (beforeFindings : List Finding) : Nat := max beforeFindings.length 1

/-- `resolvedCount` (line 312). -/
def resolvedCount (bf af : List Finding) : Nat := (resolvedIssues bf af).length

/-- `improvedCount` (line 313). -/
def improvedCount (bf af : List Finding) : Nat :=
  ((changedIssues bf af).filter fun i => i.change == ChangeType.improved).length

/-- `worsenedCount` (lines 314–316): worsened matched pairs plus all new
issues. -/
def worsenedCount (bf af : List Finding) : Nat :=
  ((changedIssues bf af).filter fun i => i.change == ChangeType.worsened).length
    + (newIssues bf af).length

/-- `improvementScore = ((resolvedCount + improvedCount) - worsenedCount) /
totalIssues` (line 322). -/
def improvementScore (bf af : List Finding) : ℚ :=
  (((resolvedCount bf af : ℚ) + (improvedCount bf af : ℚ)) - (worsenedCount bf af : ℚ))
    / (totalIssues bf : ℚ)

/-- The comparison pipeline (`BeforeAfterUpload.tsx` 256–331) on the two
(already defaulted) findings lists: partition by area, classify pairs,
aggregate, and take the verdict from the sign of the improvement score;
`changePercentage = Math.abs(improvementScore * 100)`. -/
def compareScans (beforeFindings afterFindings : List Finding) : ComparisonResult :=
  { overallChange :=
      if 0 < improvementScore beforeFindings afterFindings then .improved
      else if improvementScore beforeFindings afterFindings < 0 then .worsened
      else .stable
    changePercentage := |improvementScore beforeFindings afterFindings * 100|
    resolvedIssues := resolvedIssues beforeFindings afterFindings
    newIssues := newIssues beforeFindings afterFindings
    changedIssues := changedIssues beforeFindings afterFindings }

/-- The defensively-read result shape of the handler (`BeforeAfterUpload.tsx`
224–236): each field may be missing or mistyped (`none`) and is then
defaulted before the comparison runs. -/
structure RawScanResult where
  findings : Option (List Finding)
  severity : Option String
  confidenceScore : Option ℚ

/-- The guarded comparison flow (`BeforeAfterUpload.tsx` 216–236): a scan
whose analysis produced no result aborts with the user-facing error message
and no `ComparisonResult`; a present result has a missing findings array
defaulted to `[]` (via the `Array.isArray` guard) and the comparison
proceeds. -/
def handleCompare (beforeResult afterResult : Option RawScanResult) :
    Except String ComparisonResult :=
  match beforeResult, afterResult with
  | some b, some a => .ok (compareScans (b.findings.getD []) (a.findings.getD []))
  | _, _ => .error "Failed to analyze one or both scans. Please try again."

/-- The fixed body-part list (`ScanContext.tsx` 367). -/
def bodyParts : List String :=
  ["brain", "chest", "lung", "heart", "abdomen", "liver", "kidney", "spine",
   "pelvis", "shoulder", "knee", "ankle", "wrist", "hand", "foot"]

/-- `abnormalityIndicators` (`ScanContext.tsx` 376–380). -/
def abnormalityIndicators : List String :=
  ["abnormal", "abnormality", "lesion", "mass", "tumor", "fracture", "break",
   "inflammation", "infection", "pneumonia", "cancer", "growth", "concerning",
   "suspicious", "pathology", "irregular", "deformity", "degenerative"]

/-- `findingsIndicators` (`ScanContext.tsx` 425). -/
def findingsIndicators : List String :=
  ["finding", "abnormality", "observation", "impression"]

/-- The indicator loop of `extractMainFinding` (`ScanContext.tsx` 427–438):
at the first indicator hit, take up to 300 characters from the hit and cut at
the first `". "` (keeping the period) when one occurs in that window. -/
def mainFindingFromIndicators (analysisText : String) : List String → Option String
  | [] => none
  | indicator :: rest =>
    match strIndexOf (strToLower analysisText) indicator with
    | some index =>
      let excerpt := String.mk ((analysisText.data.drop index).take 300)
      match strIndexOf excerpt ". " with
      | some endIndex => some (String.mk (excerpt.data.take (endIndex + 1)))
      | none => some excerpt
    | none => mainFindingFromIndicators analysisText rest

/-- `extractMainFinding` (`ScanContext.tsx` 423–442): the indicator window,
or the first `min(300, length)` characters with an ellipsis appended when no
indicator occurs. -/
def extractMainFinding (analysisText : String) : String :=
  match mainFindingFromIndicators analysisText findingsIndicators with
  | some s => s
  | none => String.mk (analysisText.data.take (min 300 analysisText.length)) ++ "..."

/-- Return shape of `extractScanDetails` (`ScanContext.tsx` 327–339),
with the scan-type union kept as a string. -/
structure ExtractedDetails where
  scanType : String
  bodyPart : String
  abnormalitiesDetected : Bool
  findings : List Finding
  severity : String
deriving DecidableEq

/-- `extractScanDetails` (`ScanContext.tsx` 327–420): keyword heuristics for
scan type, body part, abnormality presence and severity, and synthesis of a
single finding when abnormalities are detected.  The impure
`finding-${Date.now()}` id is modelled by the fixed id `"finding-0"` (no
other part of the computation reads it). -/
def extractScanDetails (analysisText : String) : ExtractedDetails :=
  let scanType :=
    if containsLower analysisText "x-ray" || containsLower analysisText "xray" then "xray"
    else if containsLower analysisText "ct scan"
        || containsLower analysisText "computed tomography" then "ct"
    else if containsLower analysisText "mri"
        || containsLower analysisText "magnetic resonance" then "mri"
    else if containsLower analysisText "ultrasound"
        || containsLower analysisText "sonogram" then "ultrasound"
    else "other"
  let bodyPart := (bodyParts.find? fun part => containsLower analysisText part).getD "unknown"
  let abnormalitiesDetected :=
    abnormalityIndicators.any fun indicator => containsLower analysisText indicator
  let severity :=
    if containsLower analysisText "critical" || containsLower analysisText "severe"
        || containsLower analysisText "emergent" || containsLower analysisText "emergency" then
      "critical"
    else if containsLower analysisText "high severity" || containsLower analysisText "significant"
        || containsLower analysisText "concerning" then
      "high"
    else if containsLower analysisText "moderate"
        || containsLower analysisText "medium severity" then
      "medium"
    else if containsLower analysisText "mild" || containsLower analysisText "low severity"
        || containsLower analysisText "minimal" then
      "low"
    else "normal"
  let findings : List Finding :=
    if abnormalitiesDetected then
      [{ id := "finding-0"
         area := bodyPart
         description := extractMainFinding analysisText
         confidence := 9 / 10
         severity := severity }]
    else []
  { scanType := scanType
    bodyPart := bodyPart
    abnormalitiesDetected := abnormalitiesDetected
    findings := findings
    severity := severity }

/-- The slice of the source `ScanResult` record read by
`generateRecommendations` (the full record also carries ids, scores,
findings and timestamps which the generator never reads). -/
structure ScanResult where
  abnormalitiesDetected : Bool
  severity : String

/-- `recommendationTerms` (`ScanContext.tsx` 530). -/
def recommendationTerms : List String :=
  ["recommend", "follow-up", "follow up", "advised", "suggest"]

/-- The recommendation-sentence loop (`ScanContext.tsx` 531–541): at a term
hit, cut the sentence between the preceding period (exclusive) and the next
period (inclusive); a degenerate sentence (`end ≤ start`) falls through to
the next term. -/
def recommendationFromTerms (analysis : String) : List String → Option String
  | [] => none
  | term :: rest =>
    match strIndexOf (strToLower analysis) term with
    | some index =>
      let start := match strLastIndexOfFrom analysis "." index with
        | some j => j + 1
        | none => 0
      let stop := match strIndexOfFrom analysis "." index with
        | some j => j + 1
        | none => 0
      if start < stop then
        some (strTrim (String.mk ((analysis.data.drop start).take (stop - start))))
      else recommendationFromTerms analysis rest
    | none => recommendationFromTerms analysis rest

/-- `generateRecommendations` (`ScanContext.tsx` 527–556): with abnormalities
a sentence around a recommendation term, then severity-keyed templates;
without abnormalities the fixed no-abnormality string. -/
def generateRecommendations (analysis : String) (result : ScanResult) : String :=
  if result.abnormalitiesDetected then
    match recommendationFromTerms analysis recommendationTerms with
    | some sentence => sentence
    | none =>
      if result.severity = "critical" then
        "Immediate specialist consultation required. Consider emergency intervention."
      else if result.severity = "high" then
        "Urgent follow-up recommended within 1-2 days. Specialist consultation advised."
      else if result.severity = "medium" then
        "Follow-up recommended within 1-2 weeks. Consider additional imaging if symptoms persist."
      else
        "Follow-up at next routine visit. Monitor for any changes in symptoms."
  else
    "No abnormalities detected. Routine follow-up as needed."

/-! ### Helper lemmas -/

theorem severityRank_le_four (s : String) : severityRank s ≤ 4 := by
  unfold severityRank
  split <;> try omega
  split <;> try omega
  split <;> try omega
  split <;> try omega
  split <;> omega

theorem length_filter_add_length_filter_le {α : Type} (l : List α) (p q : α → Bool)
    (hpq : ∀ x, p x = true → q x = false) :
    (l.filter p).length + (l.filter q).length ≤ l.length := by
  induction l with
  | nil => simp
  | cons x t ih =>
    by_cases hp : p x = true
    · have hq := hpq x hp
      simp only [List.filter_cons, hp, if_true, hq, Bool.false_eq_true, if_false,
        List.length_cons]
      omega
    · simp only [Bool.not_eq_true] at hp
      simp only [List.filter_cons, hp, Bool.false_eq_true, if_false, List.length_cons]
      by_cases hq : q x = true
      · simp only [hq, if_true, List.length_cons]
        omega
      · simp only [Bool.not_eq_true] at hq
        simp only [hq, Bool.false_eq_true, if_false]
        omega

theorem find?_area_self (f : List Finding) (hnd : (f.map Finding.area).Nodup)
    (b : Finding) (hb : b ∈ f) :
    f.find? (fun a => a.area == b.area) = some b := by
  induction f with
  | nil => cases hb
  | cons x t ih =>
    rw [List.map_cons, List.nodup_cons] at hnd
    rcases List.mem_cons.mp hb with rfl | hbt
    · exact List.find?_cons_of_pos _ (by simp)
    · have hx : (x.area == b.area) = false := by
        rw [beq_eq_false_iff_ne]
        intro he
        exact hnd.1 (he ▸ List.mem_map_of_mem Finding.area hbt)
      rw [List.find?_cons_of_neg _ (by simp [hx])]
      exact ih hnd.2 hbt

theorem listIsPrefix_iff (pat l : List Char) :
    listIsPrefix pat l = true ↔ ∃ suf, l = pat ++ suf := by
  induction pat generalizing l with
  | nil =>
    simp [listIsPrefix]
  | cons p ps ih =>
    cases l with
    | nil => simp [listIsPrefix]
    | cons c cs =>
      simp only [listIsPrefix, Bool.and_eq_true, beq_iff_eq, ih, List.cons_append,
        List.cons.injEq]
      constructor
      · rintro ⟨rfl, suf, rfl⟩
        exact ⟨suf, rfl, rfl⟩
      · rintro ⟨suf, rfl, rfl⟩
        exact ⟨rfl, suf, rfl⟩

theorem listIndexOf_isSome_iff (l pat : List Char) :
    (listIndexOf l pat).isSome = true ↔ ∃ pre suf, l = pre ++ pat ++ suf := by
  induction l with
  | nil =>
    simp only [listIndexOf]
    constructor
    · intro h
      split at h
      · exact ⟨[], [], by simp_all⟩
      · simp at h
    · rintro ⟨pre, suf, h⟩
      have : pat = [] := (List.append_eq_nil.mp (List.append_eq_nil.mp h.symm).1).2
      simp [this]
  | cons c t ih =>
    simp only [listIndexOf]
    constructor
    · intro h
      split at h
      · rcases (listIsPrefix_iff pat (c :: t)).mp (by assumption) with ⟨suf, hs⟩
        exact ⟨[], suf, by simpa using hs⟩
      · rcases ih.mp (by simpa using h) with ⟨pre, suf, hs⟩
        exact ⟨c :: pre, suf, by simp [hs]⟩
    · rintro ⟨pre, suf, hs⟩
      split
      · simp
      · cases pre with
        | nil =>
          simp only [List.nil_append] at hs
          have : listIsPrefix pat (c :: t) = true :=
            (listIsPrefix_iff pat (c :: t)).mpr ⟨suf, hs⟩
          simp_all
        | cons d pre' =>
          simp only [List.cons_append, List.cons.injEq] at hs
          rcases hs with ⟨rfl, hs⟩
          simpa using ih.mpr ⟨pre', suf, hs⟩

theorem strIncludes_iff (s pat : String) :
    strIncludes s pat = true ↔ ∃ pre suf, s.data = pre ++ pat.data ++ suf := by
  unfold strIncludes
  exact listIndexOf_isSome_iff s.data pat.data

/-! ### Claim theorems -/

/-- C5: for every input `analysisText`, the Text Signal Extractor returns a
findings list of length 0 or 1, with length exactly 1 iff
`abnormalitiesDetected` is true; a synthesized Finding has area = detected
bodyPart, confidence = 0.9, and severity = the detected overall severity. -/
theorem C5_extractor_findings (text : String) :
    ((extractScanDetails text).findings.length
        = if (extractScanDetails text).abnormalitiesDetected then 1 else 0) ∧
    ∀ f ∈ (extractScanDetails text).findings,
      f.area = (extractScanDetails text).bodyPart ∧ f.confidence = 9 / 10 ∧
        f.severity = (extractScanDetails text).severity := by
  by_cases h : (abnormalityIndicators.any fun indicator => containsLower text indicator) = true
  · simp [extractScanDetails, h]
  · simp only [Bool.not_eq_true] at h
    simp [extractScanDetails, h]

/-- C5 witness: a text containing the indicator "mass" yields exactly one
finding. -/
theorem C5_witness : (extractScanDetails "mass in the chest").findings.length = 1 := by
  have h := (C5_extractor_findings "mass in the chest").1
  rw [h]
  decide

/-- C6: a severity string outside the five known levels ranks 0 (the rank of
normal), and both ranking sites — the pair classification of the Comparison
Engine and the change-intensity computation — treat a finding carrying such a
severity exactly like one carrying "normal"; ranking is total, so no error is
possible. -/
theorem C6_unrecognized_severity (s : String)
    (h : s ∉ (["normal", "low", "medium", "high", "critical"] : List String))
    (b a : Finding) (hb : b.severity = s) :
    severityRank s = 0 ∧
    classifyPair b a = classifyPair { b with severity := "normal" } a ∧
    classifyPair a b = classifyPair a { b with severity := "normal" } ∧
    calculateChangeIntensity b a = calculateChangeIntensity { b with severity := "normal" } a ∧
    calculateChangeIntensity a b = calculateChangeIntensity a { b with severity := "normal" } := by
  simp only [List.mem_cons, List.not_mem_nil, or_false, not_or] at h
  obtain ⟨h1, h2, h3, h4, h5⟩ := h
  have h0 : severityRank s = 0 := by
    simp [severityRank, h1, h2, h3, h4, h5]
  have hr : severityRank b.severity = severityRank "normal" := by
    rw [hb, h0]
    simp [severityRank]
  refine ⟨h0, ?_, ?_, ?_, ?_⟩ <;>
    simp [classifyPair, calculateChangeIntensity, hr]

/-- C6 witness at the unrecognized severity "bogus". -/
theorem C6_witness :
    severityRank "bogus" = 0 ∧
    classifyPair ⟨"i", "lung", "d", 1, "bogus"⟩ ⟨"j", "lung", "e", 1, "high"⟩
      = classifyPair ⟨"i", "lung", "d", 1, "normal"⟩ ⟨"j", "lung", "e", 1, "high"⟩ := by
  have h := C6_unrecognized_severity "bogus" (by decide)
    ⟨"i", "lung", "d", 1, "bogus"⟩ ⟨"j", "lung", "e", 1, "high"⟩ rfl
  exact ⟨h.1, h.2.1⟩

/-- C8: whenever `abnormalitiesDetected` is false, the Report Text
Generator's recommendations equal the fixed no-abnormality string, whatever
the raw analysis text contains. -/
theorem C8_fixed_recommendation (analysis : String) (result : ScanResult)
    (h : result.abnormalitiesDetected = false) :
    generateRecommendations analysis result
      = "No abnormalities detected. Routine follow-up as needed." := by
  simp [generateRecommendations, h]

/-- C8 witness: the fixed string is returned even when the text contains the
recommendation keyword "recommend". -/
theorem C8_witness :
    generateRecommendations "We recommend surgery. Soon." ⟨false, "high"⟩
      = "No abnormalities detected. Routine follow-up as needed." :=
  C8_fixed_recommendation "We recommend surgery. Soon." ⟨false, "high"⟩ rfl

/-- C9: the lung pair (before: medium, confidence 0.8; after: low, confidence
0.6) is classified improved, with changeFactors.severityChange = 25 and
changeFactors.confidenceChange = 20, for any ids and descriptions. -/
theorem C9_lung_pair (idb ida db da : String) :
    classifyPair ⟨idb, "lung", db, 8 / 10, "medium"⟩ ⟨ida, "lung", da, 6 / 10, "low"⟩
        = ChangeType.improved ∧
    (calculateChangeIntensity ⟨idb, "lung", db, 8 / 10, "medium"⟩
        ⟨ida, "lung", da, 6 / 10, "low"⟩).factors.severityChange = 25 ∧
    (calculateChangeIntensity ⟨idb, "lung", db, 8 / 10, "medium"⟩
        ⟨ida, "lung", da, 6 / 10, "low"⟩).factors.confidenceChange = 20 := by
  refine ⟨?_, ?_, ?_⟩
  · simp [classifyPair, severityRank]
  · simp [calculateChangeIntensity, severityRank, jsRound]
    norm_num
  · simp [calculateChangeIntensity, severityRank, jsRound]
    rw [abs_sub_comm, abs_of_nonneg (by norm_num : (0 : ℚ) ≤ 8 / 10 - 6 / 10)]
    norm_num

/-- Bounds on the rank difference, shared by the intensity bounds proof. -/
theorem abs_rank_diff_le (x y : String) :
    |(severityRank x : ℚ) - (severityRank y : ℚ)| ≤ 4 := by
  have hx : (severityRank x : ℚ) ≤ 4 := by exact_mod_cast severityRank_le_four x
  have hy : (severityRank y : ℚ) ≤ 4 := by exact_mod_cast severityRank_le_four y
  have hx0 : (0 : ℚ) ≤ (severityRank x : ℚ) := Nat.cast_nonneg _
  have hy0 : (0 : ℚ) ≤ (severityRank y : ℚ) := Nat.cast_nonneg _
  rw [abs_le]
  constructor <;> linarith

/-- C10: for confidences in [0,1] the per-pair intensity lies in [0, 90]; in
particular it can never attain 100. -/
theorem C10_intensity_bounds (b a : Finding)
    (hb0 : 0 ≤ b.confidence) (hb1 : b.confidence ≤ 1)
    (ha0 : 0 ≤ a.confidence) (ha1 : a.confidence ≤ 1) :
    0 ≤ (calculateChangeIntensity b a).intensity ∧
      (calculateChangeIntensity b a).intensity ≤ 90 := by
  have hsev0 : (0 : ℚ) ≤ |(severityRank a.severity : ℚ) - (severityRank b.severity : ℚ)| / 4 :=
    by positivity
  have hsev1 : |(severityRank a.severity : ℚ) - (severityRank b.severity : ℚ)| / 4 ≤ 1 := by
    have := abs_rank_diff_le a.severity b.severity
    linarith
  have hconf0 : (0 : ℚ) ≤ |a.confidence - b.confidence| := abs_nonneg _
  have hconf1 : |a.confidence - b.confidence| ≤ 1 := by
    rw [abs_le]
    constructor <;> linarith
  have hdesc0 : (0 : ℚ) ≤ (if b.description = a.description then (0 : ℚ) else 1 / 2) := by
    split <;> norm_num
  have hdesc1 : (if b.description = a.description then (0 : ℚ) else 1 / 2) ≤ 1 / 2 := by
    split <;> norm_num
  simp only [calculateChangeIntensity]
  constructor
  · apply le_min
    · rw [jsRound, Int.le_floor]
      push_cast
      nlinarith
    · norm_num
  · refine le_trans (min_le_left _ _) ?_
    rw [jsRound]
    have hq : ((|(severityRank a.severity : ℚ) - (severityRank b.severity : ℚ)| / 4) * (1 / 2)
        + |a.confidence - b.confidence| * (3 / 10)
        + (if b.description = a.description then (0 : ℚ) else 1 / 2) * (1 / 5)) * 100 + 1 / 2
        < ((91 : ℤ) : ℚ) := by
      push_cast
      nlinarith
    have hfl := Int.floor_lt.mpr hq
    omega

/-- C10 witness at a concrete pair with confidences 0.5 and 1. -/
theorem C10_witness :
    0 ≤ (calculateChangeIntensity ⟨"1", "lung", "d", 1 / 2, "high"⟩
        ⟨"2", "lung", "e", 1, "critical"⟩).intensity ∧
      (calculateChangeIntensity ⟨"1", "lung", "d", 1 / 2, "high"⟩
        ⟨"2", "lung", "e", 1, "critical"⟩).intensity ≤ 90 :=
  C10_intensity_bounds ⟨"1", "lung", "d", 1 / 2, "high"⟩ ⟨"2", "lung", "e", 1, "critical"⟩
    (by norm_num) (by norm_num) (by norm_num) (by norm_num)

/-- C2 counterexample: the before scan has a result that lacks a findings
array, yet the handler does not error — it defaults the findings to the empty
list and produces a comparison. -/
theorem C2_counterexample :
    handleCompare (some ⟨none, none, none⟩) (some ⟨some [], some "normal", some (1 / 2)⟩)
      = Except.ok (compareScans [] []) := rfl

/-- C2 (amended): a scan whose analysis produced no result makes the handler
report the error state and produce no ComparisonResult; when both results are
present, a missing findings array is defaulted to the empty list and the
comparison proceeds on the defaulted lists. -/
theorem C2_missing_result_errors (b? a? : Option RawScanResult) :
    (b? = none ∨ a? = none →
      handleCompare b? a? = Except.error "Failed to analyze one or both scans. Please try again.") ∧
    (∀ b a, b? = some b → a? = some a →
      handleCompare b? a? = Except.ok (compareScans (b.findings.getD []) (a.findings.getD []))) := by
  cases b? <;> cases a? <;>
    constructor <;>
    first
      | (intro h; rfl)
      | (rintro b a ⟨rfl⟩ ⟨rfl⟩; rfl)
      | (intro h; rcases h with h | h <;> cases h)
      | (rintro b a h1 h2; simp_all)

/-- C2 witness: a missing before-result yields the error state. -/
theorem C2_witness :
    handleCompare none (some ⟨some [], none, none⟩)
      = Except.error "Failed to analyze one or both scans. Please try again." :=
  (C2_missing_result_errors none (some ⟨some [], none, none⟩)).1 (Or.inl rfl)

/-- C7: the text "No abnormality was detected, patient is healthy" is flagged
as abnormal, and in general `abnormalitiesDetected` is true iff the lowered
text contains one of the fixed indicator words as a substring — a pure
keyword union with no negation handling. -/
theorem C7_negation_blind (text : String) :
    (extractScanDetails "No abnormality was detected, patient is healthy").abnormalitiesDetected
        = true ∧
    ((extractScanDetails text).abnormalitiesDetected = true ↔
      ∃ w ∈ abnormalityIndicators, ∃ pre suf : List Char,
        (strToLower text).data = pre ++ w.data ++ suf) := by
  constructor
  · decide
  · simp only [extractScanDetails, List.any_eq_true, containsLower]
    constructor
    · rintro ⟨w, hw, hinc⟩
      exact ⟨w, hw, (strIncludes_iff (strToLower text) w).mp hinc⟩
    · rintro ⟨w, hw, pre, suf, hdec⟩
      exact ⟨w, hw, (strIncludes_iff (strToLower text) w).mpr ⟨pre, suf, hdec⟩⟩

/-- Characterization of the pair classification by the severity ranks. -/
theorem classifyPair_iff (b a : Finding) :
    (classifyPair b a = ChangeType.improved
        ↔ severityRank a.severity < severityRank b.severity) ∧
    (classifyPair b a = ChangeType.worsened
        ↔ severityRank b.severity < severityRank a.severity) ∧
    (classifyPair b a = ChangeType.stable
        ↔ severityRank b.severity = severityRank a.severity) := by
  unfold classifyPair
  rcases Nat.lt_trichotomy (severityRank a.severity) (severityRank b.severity) with h | h | h
  · rw [if_pos (by omega : (severityRank a.severity : ℤ) - (severityRank b.severity : ℤ) < 0)]
    exact ⟨⟨fun _ => h, fun _ => rfl⟩,
      ⟨fun hx => ChangeType.noConfusion hx, fun hx => absurd hx (by omega)⟩,
      ⟨fun hx => ChangeType.noConfusion hx, fun hx => absurd hx (by omega)⟩⟩
  · rw [if_neg (by omega), if_neg (by omega)]
    exact ⟨⟨fun hx => ChangeType.noConfusion hx, fun hx => absurd hx (by omega)⟩,
      ⟨fun hx => ChangeType.noConfusion hx, fun hx => absurd hx (by omega)⟩,
      ⟨fun _ => by omega, fun _ => rfl⟩⟩
  · rw [if_neg (by omega), if_pos (by omega : (0 : ℤ) <
      (severityRank a.severity : ℤ) - (severityRank b.severity : ℤ))]
    exact ⟨⟨fun hx => ChangeType.noConfusion hx, fun hx => absurd hx (by omega)⟩,
      ⟨fun _ => h, fun _ => rfl⟩,
      ⟨fun hx => ChangeType.noConfusion hx, fun hx => absurd hx (by omega)⟩⟩

/-- Characterization of the overall verdict by the sign of the improvement
score. -/
theorem overallChange_iff (bf af : List Finding) :
    ((compareScans bf af).overallChange = ChangeType.improved
        ↔ 0 < improvementScore bf af) ∧
    ((compareScans bf af).overallChange = ChangeType.worsened
        ↔ improvementScore bf af < 0) ∧
    ((compareScans bf af).overallChange = ChangeType.stable
        ↔ improvementScore bf af = 0) := by
  have hov : (compareScans bf af).overallChange
      = (if 0 < improvementScore bf af then ChangeType.improved
        else if improvementScore bf af < 0 then ChangeType.worsened
        else ChangeType.stable) := rfl
  rcases lt_trichotomy (improvementScore bf af) 0 with h | h | h
  · rw [hov, if_neg (by linarith), if_pos h]
    exact ⟨⟨fun hx => ChangeType.noConfusion hx, fun hx => absurd hx (by linarith)⟩,
      ⟨fun _ => h, fun _ => rfl⟩,
      ⟨fun hx => ChangeType.noConfusion hx, fun hx => absurd hx (by linarith)⟩⟩
  · rw [hov, if_neg (by linarith), if_neg (by linarith)]
    exact ⟨⟨fun hx => ChangeType.noConfusion hx, fun hx => absurd hx (by linarith)⟩,
      ⟨fun hx => ChangeType.noConfusion hx, fun hx => absurd hx (by linarith)⟩,
      ⟨fun _ => h, fun _ => rfl⟩⟩
  · rw [hov, if_pos h]
    exact ⟨⟨fun _ => h, fun _ => rfl⟩,
      ⟨fun hx => ChangeType.noConfusion hx, fun hx => absurd hx (by linarith)⟩,
      ⟨fun hx => ChangeType.noConfusion hx, fun hx => absurd hx (by linarith)⟩⟩

/-- Spec-side count following the words of claim C4: the number of
before-findings whose area is absent from the after list (with no truthiness
guard on the area, unlike the code). -/
def resolvedCountClaim (bf af : List Finding) : ℕ :=
  (bf.filter fun b => !(af.any fun a => a.area == b.area)).length

/-- Spec-side improvement score over the engine's output, following the
claim's formula: ((resolved + improved) − (worsened common + new)) /
max(before.findings.length, 1). -/
def improvementScoreSpec (r : ComparisonResult) (beforeLen : ℕ) : ℚ :=
  (((r.resolvedIssues.length : ℚ)
      + (((r.changedIssues.filter fun i => i.change == ChangeType.improved).length : ℚ)))
    - ((((r.changedIssues.filter fun i => i.change == ChangeType.worsened).length : ℚ))
        + ((r.newIssues.length : ℚ))))
    / ((max beforeLen 1 : ℕ) : ℚ)

/-- C4 counterexample: a before-finding with the empty-string area and an
empty after list.  The claim counts it as resolved (its area is absent from
after) and so predicts a positive score and the verdict improved, but the
code's truthiness guard drops it: resolvedIssues is empty and the verdict is
stable. -/
theorem C4_counterexample :
    resolvedCountClaim [⟨"1", "", "", 1, "normal"⟩] [] = 1 ∧
    (compareScans [⟨"1", "", "", 1, "normal"⟩] []).resolvedIssues.length = 0 ∧
    (compareScans [⟨"1", "", "", 1, "normal"⟩] []).overallChange = ChangeType.stable := by
  refine ⟨by decide, ?_, ?_⟩
  · simp +decide [compareScans, resolvedIssues]
  · simp +decide [compareScans, improvementScore, resolvedCount, improvedCount, worsenedCount,
      resolvedIssues, newIssues, changedIssues, totalIssues, mkChangedIssue, classifyPair,
      severityRank]

/-- C4 (amended): the engine computes the aggregate exactly by the claim's
formula, with the one correction that findings whose area is the empty string
are excluded throughout (resolved, new, and common): resolvedIssues are the
non-empty-area before-findings absent from after, newIssues the
non-empty-area after-findings absent from before, each common pair is
classified improved iff the after rank is below the before rank and worsened
iff above, changePercentage = |improvementScore| × 100, and the verdict is
improved iff the score is positive, worsened iff negative, stable iff zero. -/
theorem C4_aggregate_formula (bf af : List Finding) :
    (compareScans bf af).resolvedIssues
        = bf.filter (fun b => b.area != "" && !(af.any fun a => a.area == b.area)) ∧
    (compareScans bf af).newIssues
        = af.filter (fun a => a.area != "" && !(bf.any fun b => b.area == a.area)) ∧
    (∀ i ∈ (compareScans bf af).changedIssues,
      (i.change = ChangeType.improved
          ↔ severityRank i.after.severity < severityRank i.before.severity) ∧
      (i.change = ChangeType.worsened
          ↔ severityRank i.before.severity < severityRank i.after.severity)) ∧
    (compareScans bf af).changePercentage
        = |improvementScoreSpec (compareScans bf af) bf.length * 100| ∧
    ((compareScans bf af).overallChange = ChangeType.improved
        ↔ 0 < improvementScoreSpec (compareScans bf af) bf.length) ∧
    ((compareScans bf af).overallChange = ChangeType.worsened
        ↔ improvementScoreSpec (compareScans bf af) bf.length < 0) ∧
    ((compareScans bf af).overallChange = ChangeType.stable
        ↔ improvementScoreSpec (compareScans bf af) bf.length = 0) := by
  have hscore : improvementScoreSpec (compareScans bf af) bf.length
      = improvementScore bf af := by
    simp only [improvementScoreSpec, improvementScore, compareScans, resolvedCount,
      improvedCount, worsenedCount, totalIssues]
    push_cast
    ring
  refine ⟨rfl, rfl, ?_, ?_, ?_, ?_, ?_⟩
  · intro i hi
    simp only [compareScans, changedIssues, List.mem_filterMap] at hi
    obtain ⟨b, hb, hmap⟩ := hi
    rcases hopt : (af.find? fun a => a.area == b.area) with _ | a
    · rw [hopt] at hmap
      cases hmap
    · rw [hopt] at hmap
      simp only [Option.map_some', Option.some.injEq] at hmap
      subst hmap
      have hcl := classifyPair_iff b a
      exact ⟨hcl.1, hcl.2.1⟩
  · rw [hscore]
    rfl
  · rw [hscore]
    exact (overallChange_iff bf af).1
  · rw [hscore]
    exact (overallChange_iff bf af).2.1
  · rw [hscore]
    exact (overallChange_iff bf af).2.2

/-- C4 witness: one resolved lung finding and an empty after list give a
positive score and the verdict improved. -/
theorem C4_witness :
    (compareScans [⟨"1", "lung", "d", 1, "high"⟩] []).overallChange
      = ChangeType.improved := by
  have h := (C4_aggregate_formula [⟨"1", "lung", "d", 1, "high"⟩] []).2.2.2.2.1
  apply h.mpr
  simp +decide [improvementScoreSpec, compareScans, resolvedIssues, newIssues, changedIssues]

/-- C3 counterexample: comparing the identical result with itself is not
stable when two findings share an area.  With A = [(lung, high), (lung, low)]
both before-findings match the *first* after-finding (lung, high), so the
second pair is classified worsened and compare(A, A) returns worsened with
changePercentage 50. -/
theorem C3_counterexample :
    (compareScans [⟨"1", "lung", "d", 1, "high"⟩, ⟨"2", "lung", "d", 1, "low"⟩]
        [⟨"1", "lung", "d", 1, "high"⟩, ⟨"2", "lung", "d", 1, "low"⟩]).overallChange
      = ChangeType.worsened ∧
    (compareScans [⟨"1", "lung", "d", 1, "high"⟩, ⟨"2", "lung", "d", 1, "low"⟩]
        [⟨"1", "lung", "d", 1, "high"⟩, ⟨"2", "lung", "d", 1, "low"⟩]).changePercentage
      = 50 := by
  constructor <;>
    simp +decide [compareScans, improvementScore, resolvedCount, improvedCount, worsenedCount,
      resolvedIssues, newIssues, changedIssues, totalIssues, mkChangedIssue, classifyPair,
      severityRank] <;>
    norm_num

/-- C3 (amended): comparing a result with itself yields overallChange =
stable, changePercentage = 0, empty resolvedIssues and newIssues, and only
stable changedIssues, provided no two findings share the same area (as is
always the case for Extractor-produced results, which carry at most one
finding). -/
theorem C3_self_comparison_stable (A : List Finding)
    (hnd : (A.map Finding.area).Nodup) :
    (compareScans A A).overallChange = ChangeType.stable ∧
    (compareScans A A).changePercentage = 0 ∧
    (compareScans A A).resolvedIssues = [] ∧
    (compareScans A A).newIssues = [] ∧
    ∀ i ∈ (compareScans A A).changedIssues, i.change = ChangeType.stable := by
  have hres : resolvedIssues A A = [] := by
    rw [resolvedIssues, List.filter_eq_nil_iff]
    intro b hb
    by_cases hba : b.area = ""
    · simp [hba]
    · have hany : (A.any fun a => a.area == b.area) = true :=
        List.any_eq_true.mpr ⟨b, hb, by simp⟩
      simp [hany]
  have hnew : newIssues A A = [] := by
    rw [newIssues, List.filter_eq_nil_iff]
    intro a ha
    by_cases haa : a.area = ""
    · simp [haa]
    · have hany : (A.any fun b => b.area == a.area) = true :=
        List.any_eq_true.mpr ⟨a, ha, by simp⟩
      simp [hany]
  have hch : ∀ i ∈ changedIssues A A, i.change = ChangeType.stable := by
    intro i hi
    rw [changedIssues, List.mem_filterMap] at hi
    obtain ⟨b, hb, hmap⟩ := hi
    have hbA : b ∈ A := (List.mem_filter.mp hb).1
    rw [find?_area_self A hnd b hbA] at hmap
    simp only [Option.map_some', Option.some.injEq] at hmap
    subst hmap
    show classifyPair b b = ChangeType.stable
    exact (classifyPair_iff b b).2.2.mpr rfl
  have himp : improvedCount A A = 0 := by
    rw [improvedCount, List.length_eq_zero]
    rw [List.filter_eq_nil_iff]
    intro i hi
    rw [hch i hi]
    decide
  have hwor : worsenedCount A A = 0 := by
    rw [worsenedCount, hnew]
    simp only [List.length_nil, Nat.add_zero, List.length_eq_zero]
    rw [List.filter_eq_nil_iff]
    intro i hi
    rw [hch i hi]
    decide
  have hresC : resolvedCount A A = 0 := by
    rw [resolvedCount, hres]
    rfl
  have hscore : improvementScore A A = 0 := by
    rw [improvementScore, hresC, himp, hwor]
    norm_num
  refine ⟨?_, ?_, hres, hnew, hch⟩
  · exact (overallChange_iff A A).2.2.mpr hscore
  · show |improvementScore A A * 100| = 0
    rw [hscore]
    norm_num

/-- C3 witness: a single-finding result compared with itself is stable with
change percentage 0. -/
theorem C3_witness :
    (compareScans [⟨"1", "lung", "d", 9 / 10, "medium"⟩]
        [⟨"1", "lung", "d", 9 / 10, "medium"⟩]).overallChange = ChangeType.stable ∧
    (compareScans [⟨"1", "lung", "d", 9 / 10, "medium"⟩]
        [⟨"1", "lung", "d", 9 / 10, "medium"⟩]).changePercentage = 0 := by
  have h := C3_self_comparison_stable [⟨"1", "lung", "d", 9 / 10, "medium"⟩] (by decide)
  exact ⟨h.1, h.2.1⟩

/-- C1 counterexample: with an empty before list and two new areas the
aggregate changePercentage is |(0 - 2)/1| × 100 = 200, outside [0, 100]. -/
theorem C1_counterexample :
    100 < (compareScans []
      [⟨"1", "a", "", 1, "normal"⟩, ⟨"2", "b", "", 1, "normal"⟩]).changePercentage := by
  simp +decide [compareScans, improvementScore, resolvedCount, improvedCount, worsenedCount,
    resolvedIssues, newIssues, changedIssues, totalIssues, mkChangedIssue, classifyPair,
    severityRank]
  norm_num

/-- C1 (amended): the aggregate changePercentage is always nonnegative, and
it is at most 100 whenever worsenedCount (worsened common pairs plus new
issues) does not exceed max(before.findings.length, 1); when the after scan
has more new issues than that bound the percentage exceeds 100. -/
theorem C1_change_percentage_range (bf af : List Finding) :
    0 ≤ (compareScans bf af).changePercentage ∧
    (((compareScans bf af).changedIssues.filter fun i =>
            i.change == ChangeType.worsened).length
          + (compareScans bf af).newIssues.length ≤ max bf.length 1 →
      (compareScans bf af).changePercentage ≤ 100) := by
  constructor
  · exact abs_nonneg _
  · intro hw
    have hw' : worsenedCount bf af ≤ totalIssues bf := hw
    have hri : resolvedCount bf af + improvedCount bf af ≤ totalIssues bf := by
      have h1 : improvedCount bf af ≤ (bf.filter fun b =>
          b.area != "" && (af.any fun a => a.area == b.area)).length := by
        calc improvedCount bf af
            ≤ (changedIssues bf af).length := List.length_filter_le _ _
          _ ≤ _ := by
              rw [changedIssues]
              exact List.length_filterMap_le _ _
      have h2 : (resolvedIssues bf af).length + (bf.filter fun b =>
          b.area != "" && (af.any fun a => a.area == b.area)).length ≤ bf.length := by
        rw [resolvedIssues]
        apply length_filter_add_length_filter_le
        intro x hx
        simp only [Bool.and_eq_true, Bool.not_eq_true', Bool.and_eq_false_iff] at hx ⊢
        right
        exact hx.2
      have h3 : bf.length ≤ totalIssues bf := Nat.le_max_left _ _
      rw [resolvedCount]
      omega
    have hT1 : 1 ≤ totalIssues bf := Nat.le_max_right _ _
    have hT : (0 : ℚ) < (totalIssues bf : ℚ) := by
      have : (1 : ℚ) ≤ (totalIssues bf : ℚ) := by exact_mod_cast hT1
      linarith
    have hx : |((resolvedCount bf af : ℚ) + (improvedCount bf af : ℚ)
        - (worsenedCount bf af : ℚ))| ≤ (totalIssues bf : ℚ) := by
      have h4 : (worsenedCount bf af : ℚ) ≤ (totalIssues bf : ℚ) := by exact_mod_cast hw'
      have h5 : (0 : ℚ) ≤ (resolvedCount bf af : ℚ) + (improvedCount bf af : ℚ) := by
        positivity
      have h6 : (resolvedCount bf af : ℚ) + (improvedCount bf af : ℚ)
          ≤ (totalIssues bf : ℚ) := by exact_mod_cast hri
      have h7 : (0 : ℚ) ≤ (worsenedCount bf af : ℚ) := by positivity
      rw [abs_le]
      constructor <;> linarith
    show |improvementScore bf af * 100| ≤ 100
    rw [improvementScore, abs_mul, abs_div]
    rw [abs_of_pos hT, abs_of_pos (by norm_num : (0 : ℚ) < 100)]
    rw [div_mul_eq_mul_div, div_le_iff₀ hT]
    calc |(resolvedCount bf af : ℚ) + (improvedCount bf af : ℚ)
          - (worsenedCount bf af : ℚ)| * 100
        ≤ (totalIssues bf : ℚ) * 100 := by linarith [abs_nonneg ((resolvedCount bf af : ℚ)
          + (improvedCount bf af : ℚ) - (worsenedCount bf af : ℚ))]
      _ = 100 * (totalIssues bf : ℚ) := by ring

/-- C1 witness: a single matched pair that improves keeps the percentage in
range. -/
theorem C1_witness :
    (compareScans [⟨"1", "lung", "d", 1, "high"⟩]
      [⟨"2", "lung", "d", 1, "low"⟩]).changePercentage ≤ 100 := by
  apply (C1_change_percentage_range [⟨"1", "lung", "d", 1, "high"⟩]
    [⟨"2", "lung", "d", 1, "low"⟩]).2
  simp +decide [compareScans, changedIssues, newIssues, mkChangedIssue, classifyPair,
    severityRank]
